import Mathlib

/-!
Verification of the claim-resubmission ingestion pipeline.

The repository holds two drafts of the same program:
  - src/claim_pipeline.py      (the complete draft; namespace ClaimPipeline)
  - src/claim_data_pipeline.py (an earlier draft; namespace ClaimDataPipeline)

Strings are embedded as lists of character codes (List Nat); Python str
methods used by the code (strip, lower, substring containment) are embedded
over that representation (ASCII semantics, which the rule tables and the
date formats stay inside).  Code that can raise an exception is embedded
with Except; code that returns None on failure is embedded with Option.
-/

/-- A Python string, as the list of its character codes. -/
abbrev Str := List Nat

/-- Character codes of a Lean string literal, used to transcribe the
string literals of the source. -/
def strOf (s : String) : Str := s.data.map Char.toNat

/-- ASCII lowercasing of one character code, the fragment of Python
str.lower the program relies on. -/
def lowerChar (c : Nat) : Nat := if 65 ≤ c ∧ c ≤ 90 then c + 32 else c

/-- Python str.lower over the embedded string. -/
def toLowerStr (s : Str) : Str := s.map lowerChar

/-- Python whitespace characters stripped by str.strip (ASCII range). -/
def isSpaceChar (c : Nat) : Bool := c == 32 || c == 9 || c == 10 || c == 13 || c == 12 || c == 11

/-- Python str.strip: drop leading and trailing whitespace. -/
def trimStr (s : Str) : Str := ((s.dropWhile isSpaceChar).reverse.dropWhile isSpaceChar).reverse

/-- Whether the first list is an initial segment of the second. -/
def startsW : Str → Str → Bool
  | [], _ => true
  | _ :: _, [] => false
  | a :: as, b :: bs => a == b && startsW as bs

/-- Python substring containment: substrB needle hay decides needle in hay. -/
def substrB (needle : Str) : Str → Bool
  | [] => needle.isEmpty
  | c :: t => startsW needle (c :: t) || substrB needle t

/-- The three classification labels returned by classify_denial
(the source uses the strings 'retryable', 'non-retryable', 'ambiguous'). -/
inductive Classification
  | retryable
  | nonRetryable
  | ambiguous
deriving DecidableEq

namespace ClaimPipeline

/-- RETRYABLE of src/claim_pipeline.py line 34 (lowercase literals). -/
def RETRYABLE : List Str := [strOf "missing modifier", strOf "incorrect npi", strOf "prior auth required"]

/-- NON_RETRYABLE of src/claim_pipeline.py line 35. -/
def NON_RETRYABLE : List Str := [strOf "authorization expired", strOf "incorrect provider type"]

/-- The keyword set of classify_denial, src/claim_pipeline.py line 129. -/
def KEYWORDS : List Str := [strOf "incorrect procedure", strOf "form incomplete", strOf "not billable"]

/-- classify_denial of src/claim_pipeline.py lines 120-131. -/
def classify_denial (reason : Option Str) : Classification :=
  match reason with
  | none => .ambiguous
  | some reason =>
    let r := toLowerStr reason
    if RETRYABLE.contains r then .retryable
    else if NON_RETRYABLE.contains r then .nonRetryable
    else if KEYWORDS.any (fun kw => substrB kw r) then .retryable
    else .ambiguous

end ClaimPipeline

namespace ClaimDataPipeline

/-- RETRYABLE of src/claim_data_pipeline.py line 34: the literals keep
their capital letters. -/
def RETRYABLE : List Str := [strOf "Missing modifier", strOf "Incorrect NPI", strOf "Prior auth required"]

/-- NON_RETRYABLE of src/claim_data_pipeline.py line 35 (capitalized). -/
def NON_RETRYABLE : List Str := [strOf "Authorization expired", strOf "Incorrect provider type"]

/-- The keyword set of classify_denial, src/claim_data_pipeline.py line 124. -/
def KEYWORDS : List Str := [strOf "incorrect procedure", strOf "form incomplete", strOf "not billable"]

/-- classify_denial of src/claim_data_pipeline.py lines 115-126: same code
as the other draft, but the exact-match sets above hold capitalized
literals while r has been lowercased. -/
def classify_denial (reason : Option Str) : Classification :=
  match reason with
  | none => .ambiguous
  | some reason =>
    let r := toLowerStr reason
    if RETRYABLE.contains r then .retryable
    else if NON_RETRYABLE.contains r then .nonRetryable
    else if KEYWORDS.any (fun kw => substrB kw r) then .retryable
    else .ambiguous

end ClaimDataPipeline

/-- The classification rule as the specification states it (section 4.3):
absent reason is ambiguous; else exact case-insensitive match on the
lowercase retryable set, then on the lowercase non-retryable set, then
case-insensitive keyword containment, then ambiguous. -/
def classifyDenialOfSpec (reason : Option Str) : Classification :=
  match reason with
  | none => .ambiguous
  | some reason =>
    let r := toLowerStr reason
    if [strOf "missing modifier", strOf "incorrect npi", strOf "prior auth required"].contains r then .retryable
    else if [strOf "authorization expired", strOf "incorrect provider type"].contains r then .nonRetryable
    else if [strOf "incorrect procedure", strOf "form incomplete", strOf "not billable"].any (fun kw => substrB kw r) then .retryable
    else .ambiguous

/-- Gregorian leap year, as datetime uses it. -/
def isLeap (y : Nat) : Bool := y % 4 == 0 && (y % 100 != 0 || y % 400 == 0)

/-- Length of a month, as datetime validates day-of-month. -/
def daysInMonth (y m : Nat) : Nat :=
  if m = 2 then (if isLeap y then 29 else 28)
  else if m = 4 ∨ m = 6 ∨ m = 9 ∨ m = 11 then 30
  else 31

/-- Days in the months of year y before month m. -/
def daysBeforeMonth (y m : Nat) : Nat :=
  (List.range (m - 1)).foldl (fun a i => a + daysInMonth y (i + 1)) 0

/-- Proleptic-Gregorian ordinal of a date, as date.toordinal: day 1 is
January 1 of year 1; differences of ordinals are what date subtraction
returns as timedelta days. -/
def toOrd (y m d : Nat) : Nat :=
  365 * (y - 1) + (y - 1) / 4 - (y - 1) / 100 + (y - 1) / 400 + daysBeforeMonth y m + d

/-- Digit character code. -/
def isDigitChar (c : Nat) : Bool := 48 ≤ c && c ≤ 57

/-- The dash separator of the date format. -/
def isDashChar (c : Nat) : Bool := c == 45

/-- The literal T of the datetime format; strptime compiles its pattern
with IGNORECASE, so a lowercase t also matches. -/
def isTChar (c : Nat) : Bool := c == 84 || c == 116

/-- The colon separator of the time format. -/
def isColonChar (c : Nat) : Bool := c == 58

/-- Numeric value of a digit string. -/
def natVal (s : Str) : Nat := s.foldl (fun a c => a * 10 + (c - 48)) 0

/-- Split a string at every character satisfying p (the separators are
dropped; n separators give n+1 pieces). -/
def splitP (p : Nat → Bool) : Str → List Str
  | [] => [[]]
  | c :: t =>
    if p c then [] :: splitP p t
    else
      match splitP p t with
      | [] => [[c]]
      | h :: r => (c :: h) :: r

/-- A string a one-or-two-digit strptime directive accepts, with the
value bounds lo and hi that the directive and the datetime constructor
together enforce. -/
def tokOk (s : Str) (lo hi : Nat) : Bool :=
  s.all isDigitChar && decide (1 ≤ s.length) && decide (s.length ≤ 2)
    && decide (lo ≤ natVal s) && decide (natVal s ≤ hi)

/-- The calendar validation datetime performs after the pattern match:
year at least MINYEAR, day within the month. -/
def dateOk (y m d : Nat) : Bool := decide (1 ≤ y) && decide (1 ≤ d) && decide (d ≤ daysInMonth y m)

/-- Behaviour of datetime.strptime(s, the dashed date format) followed by
taking the date: a full match of 4-digit-year, dash, month, dash, day with
the calendar validation; none models the ValueError path. -/
def parseDateFmt (s : Str) : Option (Nat × Nat × Nat) :=
  match splitP isDashChar s with
  | [ys, ms, ds] =>
    if decide (ys.length = 4) && ys.all isDigitChar && tokOk ms 1 12 && tokOk ds 1 31
        && dateOk (natVal ys) (natVal ms) (natVal ds)
    then some (natVal ys, natVal ms, natVal ds)
    else none
  | _ => none

/-- Time-of-day acceptance of the datetime format: hour, minute, second
tokens of one or two digits, with the value bounds datetime enforces. -/
def timeTokensOk (s : Str) : Bool :=
  match splitP isColonChar s with
  | [hs, ms, ss] => tokOk hs 0 23 && tokOk ms 0 59 && tokOk ss 0 59
  | _ => false

/-- Behaviour of datetime.strptime(s, the date-T-time format) followed by
taking the date portion. -/
def parseDateTimeFmt (s : Str) : Option (Nat × Nat × Nat) :=
  match splitP isTChar s with
  | [dp, tp] =>
    match parseDateFmt dp with
    | some ymd => if timeTokensOk tp then some ymd else none
    | none => none
  | _ => none

/-- Two-digit zero-padded decimal rendering (isoformat month and day). -/
def pad2 (n : Nat) : Str := [48 + n / 10, 48 + n % 10]

/-- Four-digit zero-padded decimal rendering (isoformat year). -/
def pad4 (n : Nat) : Str := [48 + n / 1000, 48 + n / 100 % 10, 48 + n / 10 % 10, 48 + n % 10]

/-- date.isoformat output for a parsed date. -/
def isoformat (y m d : Nat) : Str := pad4 y ++ 45 :: (pad2 m ++ 45 :: pad2 d)

/-- remove_whitespaces of both source files (lines 60-65): None stays
None, a string is stripped, and an empty strip result becomes None. -/
def remove_whitespaces (input : Option Str) : Option Str :=
  match input with
  | none => none
  | some s =>
    let t := trimStr s
    if t = [] then none else some t

/-- to_lower of both source files (lines 67-69): a falsy input (None or
the empty string) gives None, otherwise the lowercased string. -/
def to_lower (input : Option Str) : Option Str :=
  match input with
  | none => none
  | some s => if s = [] then none else some (toLowerStr s)

/-- TODAY of both source files (line 33): the fixed reference date. -/
def TODAY : Nat × Nat × Nat := (2025, 7, 30)

/-- older_than of both source files (lines 71-76).  A falsy d_iso (None
or empty) returns False; otherwise the date is parsed with the strict
dashed format, a parse failure raising ValueError (the error case), and
the result is whether today minus the date strictly exceeds days. -/
def older_than (d_iso : Option Str) (days : Int) (today : Nat × Nat × Nat) : Except Unit Bool :=
  match d_iso with
  | none => .ok false
  | some s =>
    if s = [] then .ok false
    else
      match parseDateFmt s with
      | none => .error ()
      | some (y, m, d) =>
        .ok (decide ((toOrd today.1 today.2.1 today.2.2 : Int) - toOrd y m d > days))

namespace ClaimPipeline

/-- to_iso_date of src/claim_pipeline.py lines 48-58: falsy input gives
None, then the dashed date format is tried, then the date-T-time format,
each returning the isoformat of the parsed date; both failing gives None. -/
def to_iso_date (date_str : Option Str) : Option Str :=
  match date_str with
  | none => none
  | some s =>
    if s = [] then none
    else
      match parseDateFmt s with
      | some (y, m, d) => some (isoformat y m d)
      | none =>
        match parseDateTimeFmt s with
        | some (y, m, d) => some (isoformat y m d)
        | none => none

end ClaimPipeline

namespace ClaimDataPipeline

/-- to_iso_date of src/claim_data_pipeline.py lines 48-58: as in the
other draft, except the second branch computes the isoformat without a
return statement (line 56), so a date-T-time input falls through and the
function returns None. -/
def to_iso_date (date_str : Option Str) : Option Str :=
  match date_str with
  | none => none
  | some s =>
    if s = [] then none
    else
      match parseDateFmt s with
      | some (y, m, d) => some (isoformat y m d)
      | none =>
        match parseDateTimeFmt s with
        | some _ => none
        | none => none

end ClaimDataPipeline

/-- The source_system tag of a canonical claim. -/
inductive Source
  | alpha
  | beta
deriving DecidableEq

/-- CanonicalClaim: the normalized record both adapters produce (the
dict yielded by load_alpha and load_beta). -/
structure Claim where
  claim_id : Option Str
  patient_id : Option Str
  procedure_code : Option Str
  denial_reason : Option Str
  status : Option Str
  submitted_at : Option Str
  source_system : Source
deriving DecidableEq

/-- A raw input record (a csv row or a json object): field name to
value, where an absent value stands for a missing key or a null. -/
abbrev Row := List (String × Option Str)

/-- Python dict row.get(k): None both for a missing key and a null value. -/
def rowGet (row : Row) (k : String) : Option Str :=
  match row.lookup k with
  | some v => v
  | none => none

/-- ResubmissionCandidate: the output record appended for an eligible
claim. -/
structure Candidate where
  claim_id : Option Str
  resubmission_reason : Option Str
  source_system : Source
  recommended_changes : Str
deriving DecidableEq

/-- Python truthiness of an optional string: None and the empty string
are falsy. -/
def pyFalsyStr (o : Option Str) : Bool :=
  match o with
  | none => true
  | some s => s.isEmpty

/-- The file kind the pipeline infers from the path ending. -/
inductive SourceKind
  | csv
  | json
  | other
deriving DecidableEq

/-- One input source: its inferred kind and the records its file holds. -/
structure SourceFile where
  kind : SourceKind
  rows : List Row
deriving DecidableEq

namespace ClaimPipeline

/-- The denial_reason normalization inline in load_alpha,
src/claim_pipeline.py lines 87-89: strip the raw value, then map it to
None when it is None or its lowercasing lies in the sentinel set holding
the string none and the empty string. -/
def alpha_denial (raw : Option Str) : Option Str :=
  match remove_whitespaces raw with
  | none => none
  | some val => if [strOf "none", strOf ""].contains (toLowerStr val) then none else some val

/-- Per-row mapping of load_alpha, src/claim_pipeline.py lines 86-99
(the file handling around the row loop is excluded; spec section 1). -/
def load_alpha (row : Row) : Claim :=
  { claim_id := remove_whitespaces (rowGet row "claim_id")
    patient_id := remove_whitespaces (rowGet row "patient_id")
    procedure_code := remove_whitespaces (rowGet row "procedure_code")
    denial_reason := alpha_denial (rowGet row "denial_reason")
    status := to_lower (remove_whitespaces (rowGet row "status"))
    submitted_at := to_iso_date (rowGet row "submitted_at")
    source_system := .alpha }

/-- Per-row mapping of load_beta, src/claim_pipeline.py lines 101-114. -/
def load_beta (row : Row) : Claim :=
  { claim_id := remove_whitespaces (rowGet row "id")
    patient_id := remove_whitespaces (rowGet row "member")
    procedure_code := remove_whitespaces (rowGet row "code")
    denial_reason := remove_whitespaces (rowGet row "error_msg")
    status := to_lower (remove_whitespaces (rowGet row "status"))
    submitted_at := to_iso_date (rowGet row "date")
    source_system := .beta }

/-- is_eligible of src/claim_pipeline.py lines 134-145: the four gates in
order, short-circuiting; the age gate propagates the ValueError older_than
may raise on an unparseable submitted_at. -/
def is_eligible (claim : Claim) : Except Unit (Bool × Option Str) :=
  if claim.status ≠ some (strOf "denied") then .ok (false, none)
  else if pyFalsyStr claim.patient_id then .ok (false, none)
  else
    match older_than claim.submitted_at 7 TODAY with
    | .error e => .error e
    | .ok b =>
      if !b then .ok (false, none)
      else if classify_denial claim.denial_reason ≠ .retryable then .ok (false, none)
      else .ok (true, claim.denial_reason)

/-- RECOMMENDATIONS of src/claim_pipeline.py lines 36-43 (lowercase keys). -/
def RECOMMENDATIONS : List (Str × Str) :=
  [(strOf "missing modifier", strOf "Add correct CPT modifier, resubmit"),
   (strOf "incorrect npi", strOf "Review provider NPI, correct and resubmit"),
   (strOf "prior auth required", strOf "Obtain/attach prior authorization and resubmit"),
   (strOf "incorrect procedure", strOf "Verify CPT/HCPCS code mapping, correct if needed and resubmit"),
   (strOf "form incomplete", strOf "Fill missing fields and resubmit"),
   (strOf "not billable", strOf "Confirm coverage/payer policy; update claim or appeal")]

/-- recommended_changes of src/claim_pipeline.py lines 147-150. -/
def recommended_changes (reason : Option Str) : Str :=
  match reason with
  | none => strOf "Review claim details, supply missing info and resubmit"
  | some r =>
    ((RECOMMENDATIONS.lookup (toLowerStr r)).getD
      (strOf "Review claim details, supply missing info and resubmit"))

/-- The metrics accumulator and candidate list of pipeline,
src/claim_pipeline.py lines 156-170, with the two inner dicts kept as
key-value lists so that a lookup of an undefined key (Python KeyError)
is observable. -/
structure PState where
  total_processed : Nat
  by_source : List (String × Nat)
  flagged_for_resubmission : Nat
  excluded_by_reason : List (String × Nat)
  candidates : List Candidate
deriving DecidableEq

/-- The metrics as pipeline initializes them (lines 156-170); note the
bucket keys: not_denied_status, patient_id_missing, too_recent,
non-retryable_or_ambiguous (with a hyphen), malformed. -/
def initState : PState :=
  { total_processed := 0
    by_source := [("alpha", 0), ("beta", 0)]
    flagged_for_resubmission := 0
    excluded_by_reason :=
      [("not_denied_status", 0), ("patient_id_missing", 0), ("too_recent", 0),
       ("non-retryable_or_ambiguous", 0), ("malformed", 0)]
    candidates := [] }

/-- Python d[k] += 1 on a counter dict: none models the KeyError raised
when k is not a key of d. -/
def incrKey (l : List (String × Nat)) (k : String) : Option (List (String × Nat)) :=
  match l.lookup k with
  | some _ => some (l.map fun p => if p.1 == k then (p.1, p.2 + 1) else p)
  | none => none

/-- The string key of a source system in the by_source dict. -/
def sourceKey : Source → String
  | .alpha => "alpha"
  | .beta => "beta"

/-- The record-level exception handler target: the malformed bucket
(this key exists in the initial metrics, so the getD never applies). -/
def bumpMalformed (st : PState) : PState :=
  { st with excluded_by_reason := (incrKey st.excluded_by_reason "malformed").getD st.excluded_by_reason }

/-- Body of the per-record loop of pipeline, src/claim_pipeline.py lines
185-212: count the record, count its source when the by_source dict has
the key, then under the record-level try classify it; an eligible record
appends a candidate, an ineligible one increments the bucket named by the
gate order, and any exception (including the KeyError of a bucket name
missing from the metrics dict) increments malformed. -/
def processRecord (st : PState) (rec : Claim) : PState :=
  let st1 := { st with total_processed := st.total_processed + 1 }
  let st2 := { st1 with by_source := (incrKey st1.by_source (sourceKey rec.source_system)).getD st1.by_source }
  match is_eligible rec with
  | .error _ => bumpMalformed st2
  | .ok (true, reason) =>
    { st2 with
      flagged_for_resubmission := st2.flagged_for_resubmission + 1
      candidates := st2.candidates ++
        [{ claim_id := rec.claim_id
           resubmission_reason := reason
           source_system := rec.source_system
           recommended_changes := recommended_changes reason }] }
  | .ok (false, _) =>
    let bucket : Except Unit String :=
      if rec.status ≠ some (strOf "denied") then .ok "not_denied"
      else if pyFalsyStr rec.patient_id then .ok "patient_missing"
      else
        match older_than rec.submitted_at 7 TODAY with
        | .error e => .error e
        | .ok b => .ok (if !b then "too_recent" else "non_retryable_or_ambiguous")
    match bucket with
    | .error _ => bumpMalformed st2
    | .ok k =>
      match incrKey st2.excluded_by_reason k with
      | some l => { st2 with excluded_by_reason := l }
      | none => bumpMalformed st2

/-- One iteration of the source loop of pipeline, src/claim_pipeline.py
lines 172-215: csv rows go through load_alpha, json rows through
load_beta, an unrecognized kind is skipped. -/
def processSource (st : PState) (src : SourceFile) : PState :=
  match src.kind with
  | .csv => src.rows.foldl (fun st row => processRecord st (load_alpha row)) st
  | .json => src.rows.foldl (fun st row => processRecord st (load_beta row)) st
  | .other => st

/-- pipeline of src/claim_pipeline.py lines 155-233: every source is
consumed in order into the one accumulator, and only then are the
candidate file and the metrics written from the final state (the writes
themselves are file output; the returned state is what they serialize). -/
def pipeline (input_files : List SourceFile) : PState :=
  input_files.foldl processSource initState

end ClaimPipeline

namespace ClaimDataPipeline

/-- Modelled value-level from the denial_reason expression of load_alpha,
src/claim_data_pipeline.py lines 89-92: for a present raw value the
condition str(raw.strip().lower in {'none', ''}) is the truthy string
'False' (the method object is never in the set), so the expression yields
None; for a missing value, None.strip() raises AttributeError. -/
def alpha_denial_reason (raw : Option Str) : Except Unit (Option Str) :=
  match raw with
  | none => .error ()
  | some _ => .ok none

/-- Per-row mapping of load_beta, src/claim_data_pipeline.py lines
97-109: the row is read with the canonical field names (claim_id,
patient_id, procedure_code, submitted_at) instead of the beta source
names (id, member, code, date); only error_msg and status keep their
source names. -/
def load_beta (row : Row) : Claim :=
  { claim_id := remove_whitespaces (rowGet row "claim_id")
    patient_id := remove_whitespaces (rowGet row "patient_id")
    procedure_code := remove_whitespaces (rowGet row "procedure_code")
    denial_reason := remove_whitespaces (rowGet row "error_msg")
    status := to_lower (remove_whitespaces (rowGet row "status"))
    submitted_at := to_iso_date (rowGet row "submitted_at")
    source_system := .beta }

/-- RECOMMENDATIONS of src/claim_data_pipeline.py lines 36-43: the keys
keep their capital letters. -/
def RECOMMENDATIONS : List (Str × Str) :=
  [(strOf "Missing modifier", strOf "Add correct CPT modifier, resubmit"),
   (strOf "Incorrect NPI", strOf "Review provider NPI, correct and resubmit"),
   (strOf "Prior auth required", strOf "Obtain/attach prior authorization and resubmit"),
   (strOf "Incorrect procedure", strOf "Verify CPT/HCPCS code mapping, correct if needed and resubmit"),
   (strOf "Form incomplete", strOf "Fill missing fields and resubmit"),
   (strOf "Not billable", strOf "Confirm coverage/payer policy; update claim or appeal")]

/-- recommended_changes of src/claim_data_pipeline.py lines 140-143: same
code as the other draft, but looking a lowercased reason up in the
capitalized map above. -/
def recommended_changes (reason : Option Str) : Str :=
  match reason with
  | none => strOf "Review claim details, supply missing info and resubmit"
  | some r =>
    ((RECOMMENDATIONS.lookup (toLowerStr r)).getD
      (strOf "Review claim details, supply missing info and resubmit"))

/-- Source consumption of pipeline, src/claim_data_pipeline.py lines
148-174: unrecognized kinds are skipped, but the candidate write and the
return statement sit inside the source loop, so the run ends with the
first recognized source (the records the draft would consume before its
candidate accumulator faults are exactly those of that source). -/
def processedSources : List SourceFile → List SourceFile
  | [] => []
  | s :: rest => if s.kind = .other then processedSources rest else [s]

end ClaimDataPipeline

/-- The alpha denial_reason rule as the claim states it: absent exactly
when the trimmed raw value is empty or case-insensitively equals none,
otherwise the trimmed original string. -/
def alphaDenialOfSpec (raw : Option Str) : Option Str :=
  let t := trimStr (raw.getD [])
  if t = [] ∨ toLowerStr t = strOf "none" then none else some t

/-- The beta field mapping as the claim states it: claim_id from id,
patient_id from member, procedure_code from code, denial_reason from
error_msg, status from status trimmed and lowercased, submitted_at from
date normalized, source_system beta. -/
def betaMapOfSpec (row : Row) : Claim :=
  { claim_id := remove_whitespaces (rowGet row "id")
    patient_id := remove_whitespaces (rowGet row "member")
    procedure_code := remove_whitespaces (rowGet row "code")
    denial_reason := remove_whitespaces (rowGet row "error_msg")
    status := to_lower (remove_whitespaces (rowGet row "status"))
    submitted_at := ClaimPipeline.to_iso_date (rowGet row "date")
    source_system := .beta }

/-- The tabular row of end-to-end scenario A of the specification
(section 8): denied on 2025-07-01 with patient P1 and reason Missing
modifier. -/
def rowA : Row :=
  [("claim_id", some (strOf "A1")), ("patient_id", some (strOf "P1")),
   ("procedure_code", some (strOf "99213")), ("denial_reason", some (strOf "Missing modifier")),
   ("status", some (strOf "denied")), ("submitted_at", some (strOf "2025-07-01"))]

/-- A structured (beta) source record carrying every beta field name. -/
def betaRowB1 : Row :=
  [("id", some (strOf "B1")), ("member", some (strOf "M1")),
   ("code", some (strOf "99213")), ("error_msg", some (strOf "Missing modifier")),
   ("status", some (strOf "denied")), ("date", some (strOf "2025-07-01"))]

/-- A processed record that is not denied and has no patient_id: the
exclusion-attribution example of the claim. -/
def approvedNoPatient : Claim :=
  { claim_id := some (strOf "A2"), patient_id := none, procedure_code := none,
    denial_reason := none, status := some (strOf "approved"), submitted_at := none,
    source_system := .alpha }

/-- A denied, aged, patient-carrying record whose reason classifies
non-retryable: its exclusion should fall in the fourth bucket. -/
def deniedNonRetryable : Claim :=
  { claim_id := some (strOf "A3"), patient_id := some (strOf "P3"), procedure_code := none,
    denial_reason := some (strOf "Authorization expired"), status := some (strOf "denied"),
    submitted_at := some (strOf "2025-07-01"), source_system := .alpha }

/-- A denied record two days old: the too-recent exclusion example. -/
def deniedTooRecent : Claim :=
  { claim_id := some (strOf "A4"), patient_id := some (strOf "P4"), procedure_code := none,
    denial_reason := some (strOf "Missing modifier"), status := some (strOf "denied"),
    submitted_at := some (strOf "2025-07-28"), source_system := .alpha }

theorem lowerChar_idem (c : Nat) : lowerChar (lowerChar c) = lowerChar c := by
  unfold lowerChar
  split
  · rename_i h
    rw [if_neg (by omega)]
  · rfl

theorem toLowerStr_idem (s : Str) : toLowerStr (toLowerStr s) = toLowerStr s := by
  induction s with
  | nil => rfl
  | cons c t ih =>
    simp only [toLowerStr, List.map_cons] at *
    rw [lowerChar_idem]
    exact congrArg _ ih

theorem toLowerStr_eq_nil {s : Str} : toLowerStr s = [] ↔ s = [] := by
  unfold toLowerStr
  exact List.map_eq_nil_iff

theorem splitP_no_sep (p : Nat → Bool) (l : Str) (h : l.all (fun c => !p c) = true) :
    splitP p l = [l] := by
  induction l with
  | nil => rfl
  | cons c t ih =>
    simp only [List.all_cons, Bool.and_eq_true, Bool.not_eq_true'] at h
    simp [splitP, h.1, ih h.2]

theorem splitP_sep_append (p : Nat → Bool) (a : Str) (c : Nat) (rest : Str)
    (ha : a.all (fun x => !p x) = true) (hc : p c = true) :
    splitP p (a ++ c :: rest) = a :: splitP p rest := by
  induction a with
  | nil => simp [splitP, hc]
  | cons x a ih =>
    simp only [List.all_cons, Bool.and_eq_true, Bool.not_eq_true'] at ha
    simp only [List.cons_append, splitP, ha.1, Bool.false_eq_true, if_false]
    rw [List.append_eq, ih ha.2]

theorem all_weaken {p q : Nat → Bool} (h : ∀ c, p c = true → q c = true) {s : Str}
    (hs : s.all p = true) : s.all q = true := by
  simp only [List.all_eq_true] at *
  exact fun x hx => h x (hs x hx)

theorem digit_not_dash : ∀ c, isDigitChar c = true → (!isDashChar c) = true := by
  intro c h
  simp only [isDigitChar, Bool.and_eq_true, decide_eq_true_eq] at h
  simp only [isDashChar, Bool.not_eq_true', beq_eq_false_iff_ne, ne_eq]
  omega

theorem digit_not_T : ∀ c, isDigitChar c = true → (!isTChar c) = true := by
  intro c h
  simp only [isDigitChar, Bool.and_eq_true, decide_eq_true_eq] at h
  simp only [isTChar, Bool.not_eq_true', Bool.or_eq_false_iff, beq_eq_false_iff_ne, ne_eq]
  omega

theorem digit_not_colon : ∀ c, isDigitChar c = true → (!isColonChar c) = true := by
  intro c h
  simp only [isDigitChar, Bool.and_eq_true, decide_eq_true_eq] at h
  simp only [isColonChar, Bool.not_eq_true', beq_eq_false_iff_ne, ne_eq]
  omega

theorem pad2_all_digits {n : Nat} (h : n ≤ 99) : (pad2 n).all isDigitChar = true := by
  simp only [pad2, List.all_cons, List.all_nil, Bool.and_eq_true, isDigitChar,
    decide_eq_true_eq, and_true]
  omega

theorem pad4_all_digits {n : Nat} (h : n ≤ 9999) : (pad4 n).all isDigitChar = true := by
  simp only [pad4, List.all_cons, List.all_nil, Bool.and_eq_true, isDigitChar,
    decide_eq_true_eq, and_true]
  omega

theorem natVal_pad2 {n : Nat} (h : n ≤ 99) : natVal (pad2 n) = n := by
  simp only [natVal, pad2, List.foldl]
  omega

theorem natVal_pad4 {n : Nat} (h : n ≤ 9999) : natVal (pad4 n) = n := by
  simp only [natVal, pad4, List.foldl]
  omega

theorem foldl_digits_lt (s : Str) : ∀ a, s.all isDigitChar = true →
    s.foldl (fun a c => a * 10 + (c - 48)) a < (a + 1) * 10 ^ s.length := by
  induction s with
  | nil => intro a _; simp
  | cons c t ih =>
    intro a h
    simp only [List.all_cons, Bool.and_eq_true] at h
    have hc : c ≤ 57 := by
      have := h.1
      simp only [isDigitChar, Bool.and_eq_true, decide_eq_true_eq] at this
      exact this.2
    have step := ih (a * 10 + (c - 48)) h.2
    calc List.foldl (fun a c => a * 10 + (c - 48)) (a * 10 + (c - 48)) t
        < (a * 10 + (c - 48) + 1) * 10 ^ t.length := step
      _ ≤ ((a + 1) * 10) * 10 ^ t.length := by
          have : a * 10 + (c - 48) + 1 ≤ (a + 1) * 10 := by omega
          exact Nat.mul_le_mul_right _ this
      _ = (a + 1) * 10 ^ (c :: t).length := by
          simp [List.length_cons, Nat.pow_succ]
          ring

theorem natVal_lt (s : Str) (h : s.all isDigitChar = true) : natVal s < 10 ^ s.length := by
  have := foldl_digits_lt s 0 h
  simpa [natVal] using this

theorem daysInMonth_le (y m : Nat) : daysInMonth y m ≤ 31 := by
  unfold daysInMonth
  split
  · split <;> omega
  · split <;> omega

theorem daysInMonth_pos (y m : Nat) : 1 ≤ daysInMonth y m := by
  unfold daysInMonth
  split
  · split <;> omega
  · split <;> omega

theorem tokOk_dest {s : Str} {lo hi : Nat} (h : tokOk s lo hi = true) :
    s.all isDigitChar = true ∧ 1 ≤ s.length ∧ s.length ≤ 2 ∧ lo ≤ natVal s ∧ natVal s ≤ hi := by
  simp only [tokOk, Bool.and_eq_true, decide_eq_true_eq] at h
  exact ⟨h.1.1.1.1, h.1.1.1.2, h.1.1.2, h.1.2, h.2⟩

theorem tokOk_intro {s : Str} {lo hi : Nat} (hall : s.all isDigitChar = true)
    (h1 : 1 ≤ s.length) (h2 : s.length ≤ 2) (h3 : lo ≤ natVal s) (h4 : natVal s ≤ hi) :
    tokOk s lo hi = true := by
  simp only [tokOk, Bool.and_eq_true, decide_eq_true_eq]
  exact ⟨⟨⟨⟨hall, h1⟩, h2⟩, h3⟩, h4⟩

theorem dateOk_dest {y m d : Nat} (h : dateOk y m d = true) :
    1 ≤ y ∧ 1 ≤ d ∧ d ≤ daysInMonth y m := by
  simp only [dateOk, Bool.and_eq_true, decide_eq_true_eq] at h
  exact ⟨h.1.1, h.1.2, h.2⟩

theorem dateOk_intro {y m d : Nat} (h1 : 1 ≤ y) (h2 : 1 ≤ d) (h3 : d ≤ daysInMonth y m) :
    dateOk y m d = true := by
  simp only [dateOk, Bool.and_eq_true, decide_eq_true_eq]
  exact ⟨⟨h1, h2⟩, h3⟩

/-- The strict dashed-date parse accepts the isoformat rendering of any
valid calendar date and returns that date. -/
theorem parseDateFmt_isoformat {y m d : Nat} (hy1 : 1 ≤ y) (hy2 : y ≤ 9999)
    (hm1 : 1 ≤ m) (hm2 : m ≤ 12) (hd1 : 1 ≤ d) (hd2 : d ≤ daysInMonth y m) :
    parseDateFmt (isoformat y m d) = some (y, m, d) := by
  have hd31 : d ≤ 31 := le_trans hd2 (daysInMonth_le y m)
  have hm99 : m ≤ 99 := by omega
  have hd99 : d ≤ 99 := by omega
  have hdig4 := pad4_all_digits hy2
  have hdigm := pad2_all_digits hm99
  have hdigd := pad2_all_digits hd99
  have hys : natVal (pad4 y) = y := natVal_pad4 hy2
  have hms : natVal (pad2 m) = m := natVal_pad2 hm99
  have hds : natVal (pad2 d) = d := natVal_pad2 hd99
  have htokm : tokOk (pad2 m) 1 12 = true :=
    tokOk_intro hdigm (by simp [pad2]) (by simp [pad2]) (by omega) (by omega)
  have htokd : tokOk (pad2 d) 1 31 = true :=
    tokOk_intro hdigd (by simp [pad2]) (by simp [pad2]) (by omega) (by omega)
  have hdok : dateOk y m d = true := dateOk_intro hy1 hd1 hd2
  unfold parseDateFmt isoformat
  rw [splitP_sep_append isDashChar (pad4 y) 45 _ (all_weaken digit_not_dash hdig4) rfl,
      splitP_sep_append isDashChar (pad2 m) 45 _ (all_weaken digit_not_dash hdigm) rfl,
      splitP_no_sep isDashChar (pad2 d) (all_weaken digit_not_dash hdigd)]
  have hlen4 : decide ((pad4 y).length = 4) = true := by rw [pad4]; simp
  simp only [hlen4, hdig4, htokm, htokd, hys, hms, hds, hdok, Bool.and_self,
    Bool.true_and, if_true]

/-- Inversion of the strict dashed-date parse: a successful parse yields
a valid in-range calendar date. -/
theorem parseDateFmt_bounds {s : Str} {y m d : Nat}
    (h : parseDateFmt s = some (y, m, d)) :
    1 ≤ y ∧ y ≤ 9999 ∧ 1 ≤ m ∧ m ≤ 12 ∧ 1 ≤ d ∧ d ≤ daysInMonth y m := by
  unfold parseDateFmt at h
  split at h
  · rename_i ys ms ds heq
    split at h
    · rename_i hcond
      injection h with h
      have hy : natVal ys = y := congrArg Prod.fst h
      have hm : natVal ms = m := congrArg (fun p => p.2.1) h
      have hd : natVal ds = d := congrArg (fun p => p.2.2) h
      simp only [Bool.and_eq_true] at hcond
      obtain ⟨⟨⟨⟨hA, hB⟩, hC⟩, _⟩, hE⟩ := hcond
      have hylen : ys.length = 4 := of_decide_eq_true hA
      have hylt : natVal ys < 10 ^ ys.length := natVal_lt ys hB
      rw [hylen] at hylt
      have hpow : (10 : Nat) ^ 4 = 10000 := by norm_num
      rw [hpow] at hylt
      obtain ⟨_, _, _, hClo, hChi⟩ := tokOk_dest hC
      obtain ⟨hE1, hE2, hE3⟩ := dateOk_dest hE
      subst hy hm hd
      exact ⟨hE1, by omega, hClo, hChi, hE2, hE3⟩
    · exact absurd h (by simp)
  · exact absurd h (by simp)

/-- Rendering of a time of day in the HH:MM:SS shape of the second
accepted format. -/
def timeRender (h mi s : Nat) : Str := pad2 h ++ 58 :: (pad2 mi ++ 58 :: pad2 s)

theorem timeTokensOk_timeRender {h mi s : Nat} (hh : h ≤ 23) (hmi : mi ≤ 59) (hs : s ≤ 59) :
    timeTokensOk (timeRender h mi s) = true := by
  have hdh := pad2_all_digits (show h ≤ 99 by omega)
  have hdm := pad2_all_digits (show mi ≤ 99 by omega)
  have hds := pad2_all_digits (show s ≤ 99 by omega)
  unfold timeTokensOk timeRender
  rw [splitP_sep_append isColonChar (pad2 h) 58 _ (all_weaken digit_not_colon hdh) rfl,
      splitP_sep_append isColonChar (pad2 mi) 58 _ (all_weaken digit_not_colon hdm) rfl,
      splitP_no_sep isColonChar (pad2 s) (all_weaken digit_not_colon hds)]
  have t1 : tokOk (pad2 h) 0 23 = true :=
    tokOk_intro hdh (by simp [pad2]) (by simp [pad2])
      (Nat.zero_le _) (by rw [natVal_pad2 (by omega : h ≤ 99)]; omega)
  have t2 : tokOk (pad2 mi) 0 59 = true :=
    tokOk_intro hdm (by simp [pad2]) (by simp [pad2])
      (Nat.zero_le _) (by rw [natVal_pad2 (by omega : mi ≤ 99)]; omega)
  have t3 : tokOk (pad2 s) 0 59 = true :=
    tokOk_intro hds (by simp [pad2]) (by simp [pad2])
      (Nat.zero_le _) (by rw [natVal_pad2 (by omega : s ≤ 99)]; omega)
  simp only [t1, t2, t3, Bool.and_self]

/-- The strict dashed-date parse rejects any isoformat date followed by a
T and a time of day: the would-be day token is too long. -/
theorem parseDateFmt_dateTime {y m d : Nat} (rest : Str) (hy2 : y ≤ 9999)
    (hm99 : m ≤ 99) (hd99 : d ≤ 99) (hrest : rest.all (fun c => !isDashChar c) = true) :
    parseDateFmt (isoformat y m d ++ 84 :: rest) = none := by
  have hdig4 := pad4_all_digits hy2
  have hdigm := pad2_all_digits hm99
  have hdigd := pad2_all_digits hd99
  have htail : (pad2 d ++ 84 :: rest).all (fun c => !isDashChar c) = true := by
    simp only [List.all_append, List.all_cons, Bool.and_eq_true]
    exact ⟨all_weaken digit_not_dash hdigd, rfl, hrest⟩
  unfold parseDateFmt isoformat
  rw [List.append_assoc, List.cons_append, List.append_assoc, List.cons_append]
  rw [splitP_sep_append isDashChar (pad4 y) 45 _ (all_weaken digit_not_dash hdig4) rfl,
      splitP_sep_append isDashChar (pad2 m) 45 _ (all_weaken digit_not_dash hdigm) rfl,
      splitP_no_sep isDashChar (pad2 d ++ 84 :: rest) htail]
  have hlen : tokOk (pad2 d ++ 84 :: rest) 1 31 = false := by
    have hl : (pad2 d ++ 84 :: rest).length = 3 + rest.length := by simp [pad2]; omega
    simp only [tokOk, hl]
    have hle : decide (3 + rest.length ≤ 2) = false := decide_eq_false (by omega)
    simp [hle]
  simp [hlen]

/-- The date-T-time parse accepts an isoformat date, a T, and an
in-range time, and returns the date. -/
theorem parseDateTimeFmt_render {y m d h mi s : Nat} (hy1 : 1 ≤ y) (hy2 : y ≤ 9999)
    (hm1 : 1 ≤ m) (hm2 : m ≤ 12) (hd1 : 1 ≤ d) (hd2 : d ≤ daysInMonth y m)
    (hh : h ≤ 23) (hmi : mi ≤ 59) (hs : s ≤ 59) :
    parseDateTimeFmt (isoformat y m d ++ 84 :: timeRender h mi s) = some (y, m, d) := by
  have hd31 : d ≤ 31 := le_trans hd2 (daysInMonth_le y m)
  have hiso : (isoformat y m d).all (fun c => !isTChar c) = true := by
    simp only [isoformat, List.all_append, List.all_cons, Bool.and_eq_true]
    exact ⟨all_weaken digit_not_T (pad4_all_digits hy2), rfl,
           all_weaken digit_not_T (pad2_all_digits (show m ≤ 99 by omega)), rfl,
           all_weaken digit_not_T (pad2_all_digits (show d ≤ 99 by omega))⟩
  unfold parseDateTimeFmt
  rw [splitP_sep_append isTChar (isoformat y m d) 84 _ hiso rfl,
      splitP_no_sep isTChar (timeRender h mi s) ?tr]
  case tr =>
    simp only [timeRender, List.all_append, List.all_cons, Bool.and_eq_true]
    exact ⟨all_weaken digit_not_T (pad2_all_digits (show h ≤ 99 by omega)), rfl,
           all_weaken digit_not_T (pad2_all_digits (show mi ≤ 99 by omega)), rfl,
           all_weaken digit_not_T (pad2_all_digits (show s ≤ 99 by omega))⟩
  simp [parseDateFmt_isoformat hy1 hy2 hm1 hm2 hd1 hd2, timeTokensOk_timeRender hh hmi hs]

/-- Inversion of the date-time parse: the date portion satisfies the same
bounds. -/
theorem parseDateTimeFmt_bounds {s : Str} {y m d : Nat}
    (h : parseDateTimeFmt s = some (y, m, d)) :
    1 ≤ y ∧ y ≤ 9999 ∧ 1 ≤ m ∧ m ≤ 12 ∧ 1 ≤ d ∧ d ≤ daysInMonth y m := by
  unfold parseDateTimeFmt at h
  split at h
  · rename_i dp tp heq
    split at h
    · rename_i ymd hdp
      split at h
      · injection h with h
        subst h
        exact parseDateFmt_bounds hdp
      · exact absurd h (by simp)
    · exact absurd h (by simp)
  · exact absurd h (by simp)

theorem isoformat_ne_nil (y m d : Nat) : isoformat y m d ≠ [] := by
  simp [isoformat, pad4]

/-- Every present output of to_iso_date is the isoformat of a valid
in-range calendar date. -/
theorem to_iso_date_some {raw : Option Str} {s : Str}
    (h : ClaimPipeline.to_iso_date raw = some s) :
    ∃ y m d, s = isoformat y m d ∧ 1 ≤ y ∧ y ≤ 9999 ∧ 1 ≤ m ∧ m ≤ 12
      ∧ 1 ≤ d ∧ d ≤ daysInMonth y m := by
  unfold ClaimPipeline.to_iso_date at h
  split at h
  · exact absurd h (by simp)
  · split at h
    · exact absurd h (by simp)
    · split at h
      · rename_i y m d heq
        injection h with h
        obtain ⟨h1, h2, h3, h4, h5, h6⟩ := parseDateFmt_bounds heq
        exact ⟨y, m, d, h.symm, h1, h2, h3, h4, h5, h6⟩
      · split at h
        · rename_i y m d heq
          injection h with h
          obtain ⟨h1, h2, h3, h4, h5, h6⟩ := parseDateTimeFmt_bounds heq
          exact ⟨y, m, d, h.symm, h1, h2, h3, h4, h5, h6⟩
        · exact absurd h (by simp)

/-- Feeding older_than any output of to_iso_date never reaches the
ValueError branch. -/
theorem older_than_to_iso (raw : Option Str) (days : Int) (today : Nat × Nat × Nat) :
    ∃ b, older_than (ClaimPipeline.to_iso_date raw) days today = .ok b := by
  cases hr : ClaimPipeline.to_iso_date raw with
  | none => exact ⟨false, rfl⟩
  | some s =>
    obtain ⟨y, m, d, hs, hy1, hy2, hm1, hm2, hd1, hd2⟩ := to_iso_date_some hr
    subst hs
    refine ⟨decide ((toOrd today.1 today.2.1 today.2.2 : Int) - toOrd y m d > days), ?_⟩
    simp only [older_than]
    rw [if_neg (isoformat_ne_nil y m d), parseDateFmt_isoformat hy1 hy2 hm1 hm2 hd1 hd2]

/-- The inline alpha denial normalization agrees with the sentinel rule
as the claim words it. -/
theorem alpha_denial_eq_spec (raw : Option Str) :
    ClaimPipeline.alpha_denial raw = alphaDenialOfSpec raw := by
  unfold ClaimPipeline.alpha_denial alphaDenialOfSpec remove_whitespaces
  cases raw with
  | none => rfl
  | some s =>
    by_cases ht : trimStr s = []
    · simp [ht]
    · by_cases hn : toLowerStr (trimStr s) = strOf "none"
      · simp [ht, hn]
      · have hnil : ¬ toLowerStr (trimStr s) = strOf "" := by
          simpa [strOf] using fun he => ht (toLowerStr_eq_nil.mp he)
        simp [ht, hn, hnil]

/-- C1: classify_denial applies, in order: absent reason gives ambiguous;
an exact lowercased match in the retryable set gives retryable; an exact
match in the non-retryable set gives non-retryable; a contained keyword
gives retryable; anything else gives ambiguous.  This holds of
src/claim_pipeline.py (first conjunct, against the rule as the spec words
it), but in src/claim_data_pipeline.py the two exact-match sets hold
capitalized literals that a lowercased reason can never equal, so both
exact branches are dead there: the remaining conjuncts evaluate that
draft at the claimed set members. -/
theorem c1_classify_denial_rules :
    (∀ reason : Option Str, ClaimPipeline.classify_denial reason = classifyDenialOfSpec reason)
    ∧ ClaimDataPipeline.classify_denial (some (strOf "missing modifier")) = Classification.ambiguous
    ∧ ClaimDataPipeline.classify_denial (some (strOf "authorization expired")) = Classification.ambiguous
    ∧ ClaimPipeline.classify_denial (some (strOf "missing modifier")) = Classification.retryable
    ∧ ClaimPipeline.classify_denial (some (strOf "authorization expired")) = Classification.nonRetryable := by
  refine ⟨fun reason => rfl, by decide, by decide, by decide, by decide⟩

/-- C2: a processed record failing eligibility should increment exactly
the bucket named by the gate order; but in src/claim_pipeline.py the
increments address the keys not_denied, patient_missing and
non_retryable_or_ambiguous while the metrics dict defines
not_denied_status, patient_id_missing and non-retryable_or_ambiguous, so
those three increments raise KeyError and the record-level handler
counts the record as malformed instead.  A status approved, patient-less
record is attributed to malformed, not to the not-denied bucket; only
the too-recent bucket works as claimed. -/
theorem c2_exclusion_bucket_key_mismatch :
    ClaimPipeline.is_eligible approvedNoPatient = Except.ok (false, none)
    ∧ (ClaimPipeline.processRecord ClaimPipeline.initState approvedNoPatient).excluded_by_reason
        = [("not_denied_status", 0), ("patient_id_missing", 0), ("too_recent", 0),
           ("non-retryable_or_ambiguous", 0), ("malformed", 1)]
    ∧ (ClaimPipeline.processRecord ClaimPipeline.initState deniedNonRetryable).excluded_by_reason
        = [("not_denied_status", 0), ("patient_id_missing", 0), ("too_recent", 0),
           ("non-retryable_or_ambiguous", 0), ("malformed", 1)]
    ∧ (ClaimPipeline.processRecord ClaimPipeline.initState deniedTooRecent).excluded_by_reason
        = [("not_denied_status", 0), ("patient_id_missing", 0), ("too_recent", 1),
           ("non-retryable_or_ambiguous", 0), ("malformed", 0)] := by
  refine ⟨rfl, by decide, by decide, by decide⟩

/-- C3: the structured (beta) adapter should map id to claim_id, member
to patient_id, code to procedure_code, error_msg to denial_reason,
status trimmed and lowercased, date normalized, tagged beta.  The
load_beta of src/claim_pipeline.py does exactly this (first conjunct);
the load_beta of src/claim_data_pipeline.py reads the canonical names
claim_id, patient_id, procedure_code and submitted_at instead, so on a
record carrying the beta field names it drops id, member, code and date
(remaining conjuncts). -/
theorem c3_beta_field_mapping :
    (∀ row : Row, ClaimPipeline.load_beta row = betaMapOfSpec row)
    ∧ (ClaimDataPipeline.load_beta betaRowB1).claim_id = none
    ∧ (ClaimDataPipeline.load_beta betaRowB1).patient_id = none
    ∧ (ClaimDataPipeline.load_beta betaRowB1).procedure_code = none
    ∧ (ClaimDataPipeline.load_beta betaRowB1).submitted_at = none
    ∧ ClaimPipeline.load_beta betaRowB1 =
        { claim_id := some (strOf "B1"), patient_id := some (strOf "M1"),
          procedure_code := some (strOf "99213"),
          denial_reason := some (strOf "Missing modifier"),
          status := some (strOf "denied"), submitted_at := some (strOf "2025-07-01"),
          source_system := .beta } := by
  refine ⟨fun row => rfl, by decide, by decide, by decide, by decide, by decide⟩

/-- C4: the pipeline should consume every source in order and finalize
candidates and metrics once per run.  src/claim_pipeline.py does: its run
over files with one more source equals the shorter run extended by that
source, and both records of a two-source run are processed.  In
src/claim_data_pipeline.py the candidate write and the return statement
sit inside the source loop, so of two recognized sources only the first
is ever consumed (last conjunct). -/
theorem c4_pipeline_single_pass :
    (∀ (files : List SourceFile) (s : SourceFile),
        ClaimPipeline.pipeline (files ++ [s]) =
          ClaimPipeline.processSource (ClaimPipeline.pipeline files) s)
    ∧ (ClaimPipeline.pipeline [⟨.csv, [rowA]⟩, ⟨.csv, [rowA]⟩]).total_processed = 2
    ∧ ClaimDataPipeline.processedSources [⟨.csv, [rowA]⟩, ⟨.csv, [rowA]⟩] = [⟨.csv, [rowA]⟩] := by
  refine ⟨?_, by decide, by decide⟩
  intro files s
  simp [ClaimPipeline.pipeline, List.foldl_append]

/-- C5: on the single scenario-A row (denied, 2025-07-01, patient P1,
reason Missing modifier) against the fixed reference date 2025-07-30,
src/claim_pipeline.py produces exactly one candidate whose
recommended_changes is the modifier remediation text.  In
src/claim_data_pipeline.py that text is unreachable: its RECOMMENDATIONS
keys are capitalized while the lookup lowercases the reason (third
conjunct), and its alpha adapter maps every present denial_reason to
None (fourth conjunct). -/
theorem c5_end_to_end_alpha_candidate :
    (ClaimPipeline.pipeline [⟨.csv, [rowA]⟩]).candidates =
      [{ claim_id := some (strOf "A1"), resubmission_reason := some (strOf "Missing modifier"),
         source_system := .alpha,
         recommended_changes := strOf "Add correct CPT modifier, resubmit" }]
    ∧ (ClaimPipeline.pipeline [⟨.csv, [rowA]⟩]).flagged_for_resubmission = 1
    ∧ ClaimDataPipeline.recommended_changes (some (strOf "Missing modifier"))
        = strOf "Review claim details, supply missing info and resubmit"
    ∧ ClaimDataPipeline.alpha_denial_reason (some (strOf "Missing modifier")) = Except.ok none := by
  refine ⟨by decide, by decide, by decide, rfl⟩

/-- C6: the alpha adapter leaves denial_reason absent exactly when the
trimmed raw value is empty or case-insensitively the string none, and
otherwise keeps the trimmed original.  This holds of
src/claim_pipeline.py; the corresponding expression of
src/claim_data_pipeline.py yields None for every present raw value
(second conjunct evaluates it at a value the claim requires preserved). -/
theorem c6_alpha_denial_sentinel :
    (∀ row : Row, (ClaimPipeline.load_alpha row).denial_reason
        = alphaDenialOfSpec (rowGet row "denial_reason"))
    ∧ ClaimDataPipeline.alpha_denial_reason (some (strOf "Some other reason")) = Except.ok none := by
  refine ⟨?_, rfl⟩
  intro row
  exact alpha_denial_eq_spec (rowGet row "denial_reason")

/-- C7: to_iso_date returns the date portion for the dashed date format
and for the date-T-time format, and absent for empty input, other
formats, or parse failure, never raising (the embedding is total by
construction because both ValueError paths are caught).  This holds of
src/claim_pipeline.py; in src/claim_data_pipeline.py the second format
branch lacks its return statement, so a date-T-time input yields None
there (last conjunct), against both the claim and the other draft
(second-to-last conjunct). -/
theorem c7_to_iso_date_formats :
    ClaimPipeline.to_iso_date none = none
    ∧ ClaimPipeline.to_iso_date (some []) = none
    ∧ (∀ y m d : Nat, 1 ≤ y → y ≤ 9999 → 1 ≤ m → m ≤ 12 → 1 ≤ d → d ≤ daysInMonth y m →
        ClaimPipeline.to_iso_date (some (isoformat y m d)) = some (isoformat y m d))
    ∧ (∀ y m d h mi s : Nat, 1 ≤ y → y ≤ 9999 → 1 ≤ m → m ≤ 12 → 1 ≤ d → d ≤ daysInMonth y m →
        h ≤ 23 → mi ≤ 59 → s ≤ 59 →
        ClaimPipeline.to_iso_date (some (isoformat y m d ++ 84 :: timeRender h mi s))
          = some (isoformat y m d))
    ∧ ClaimPipeline.to_iso_date (some (strOf "07/30/2025")) = none
    ∧ ClaimPipeline.to_iso_date (some (strOf "2025-07-01T10:00:00")) = some (strOf "2025-07-01")
    ∧ ClaimDataPipeline.to_iso_date (some (strOf "2025-07-01T10:00:00")) = none := by
  refine ⟨rfl, rfl, ?_, ?_, by decide, by decide, by decide⟩
  · intro y m d hy1 hy2 hm1 hm2 hd1 hd2
    simp [ClaimPipeline.to_iso_date, isoformat_ne_nil y m d,
      parseDateFmt_isoformat hy1 hy2 hm1 hm2 hd1 hd2]
  · intro y m d h mi s hy1 hy2 hm1 hm2 hd1 hd2 hh hmi hs
    have hdm := daysInMonth_le y m
    have hm99 : m ≤ 99 := by omega
    have hd99 : d ≤ 99 := by omega
    have hrest : (timeRender h mi s).all (fun c => !isDashChar c) = true := by
      simp only [timeRender, List.all_append, List.all_cons, Bool.and_eq_true]
      exact ⟨all_weaken digit_not_dash (pad2_all_digits (by omega)), rfl,
             all_weaken digit_not_dash (pad2_all_digits (by omega)), rfl,
             all_weaken digit_not_dash (pad2_all_digits (by omega))⟩
    have h1 := parseDateFmt_dateTime (timeRender h mi s) hy2 hm99 hd99 hrest
    have h2 := parseDateTimeFmt_render hy1 hy2 hm1 hm2 hd1 hd2 hh hmi hs
    have hne : isoformat y m d ++ 84 :: timeRender h mi s ≠ [] := by
      simp [isoformat, pad4]
    simp [ClaimPipeline.to_iso_date, hne, h1, h2]

/-- Witness for C7: the accepted-format conjuncts applied at the
concrete date 2025-07-01 and time 10:00:00. -/
theorem c7_to_iso_date_formats_witness :
    ClaimPipeline.to_iso_date (some (isoformat 2025 7 1)) = some (isoformat 2025 7 1)
    ∧ ClaimPipeline.to_iso_date (some (isoformat 2025 7 1 ++ 84 :: timeRender 10 0 0))
        = some (isoformat 2025 7 1) :=
  ⟨c7_to_iso_date_formats.2.2.1 2025 7 1 (by decide) (by decide) (by decide) (by decide)
      (by decide) (by decide),
   c7_to_iso_date_formats.2.2.2.1 2025 7 1 10 0 0 (by decide) (by decide) (by decide)
      (by decide) (by decide) (by decide) (by decide) (by decide) (by decide)⟩

/-- C8: older_than returns False for an absent date and otherwise
compares the ordinal difference strictly against the threshold: exactly
seven days is not older, eight days is (both source files hold the same
older_than). -/
theorem c8_older_than_strict :
    (∀ (days : Int) (today : Nat × Nat × Nat), older_than none days today = Except.ok false)
    ∧ (∀ (s : Str) (y m d : Nat) (days : Int) (today : Nat × Nat × Nat),
        parseDateFmt s = some (y, m, d) →
        older_than (some s) days today =
          Except.ok (decide ((toOrd today.1 today.2.1 today.2.2 : Int) - toOrd y m d > days)))
    ∧ older_than (some (strOf "2025-07-23")) 7 TODAY = Except.ok false
    ∧ older_than (some (strOf "2025-07-22")) 7 TODAY = Except.ok true := by
  refine ⟨fun days today => rfl, ?_, rfl, rfl⟩
  intro s y m d days today h
  cases s with
  | nil => simp [parseDateFmt, splitP] at h
  | cons c t =>
    simp only [older_than]
    rw [if_neg (by simp : ¬(c :: t : Str) = []), h]

/-- Witness for C8: the parse-hypothesis conjunct applied at the date
eight days before the fixed reference date. -/
theorem c8_older_than_strict_witness :
    older_than (some (strOf "2025-07-22")) 7 TODAY =
      Except.ok (decide ((toOrd TODAY.1 TODAY.2.1 TODAY.2.2 : Int) - toOrd 2025 7 22 > 7)) :=
  c8_older_than_strict.2.1 (strOf "2025-07-22") 2025 7 22 7 TODAY (by decide)

/-- C9: classify_denial is case-insensitive: reasons equal up to letter
case classify identically, equivalently classifying a reason equals
classifying its lowercasing; this holds in both source files because
each lowercases the reason before every test. -/
theorem c9_classify_denial_case_insensitive :
    (∀ s t : Str, toLowerStr s = toLowerStr t →
        ClaimPipeline.classify_denial (some s) = ClaimPipeline.classify_denial (some t))
    ∧ (∀ s : Str, ClaimPipeline.classify_denial (some s)
        = ClaimPipeline.classify_denial (some (toLowerStr s)))
    ∧ (∀ s t : Str, toLowerStr s = toLowerStr t →
        ClaimDataPipeline.classify_denial (some s) = ClaimDataPipeline.classify_denial (some t))
    ∧ ClaimPipeline.classify_denial (some (strOf "Missing Modifier"))
        = ClaimPipeline.classify_denial (some (strOf "missing modifier")) := by
  have hcp : ∀ s t : Str, toLowerStr s = toLowerStr t →
      ClaimPipeline.classify_denial (some s) = ClaimPipeline.classify_denial (some t) := by
    intro s t h
    simp only [ClaimPipeline.classify_denial]
    rw [h]
  have hcdp : ∀ s t : Str, toLowerStr s = toLowerStr t →
      ClaimDataPipeline.classify_denial (some s) = ClaimDataPipeline.classify_denial (some t) := by
    intro s t h
    simp only [ClaimDataPipeline.classify_denial]
    rw [h]
  exact ⟨hcp, fun s => hcp s (toLowerStr s) (toLowerStr_idem s).symm, hcdp, by decide⟩

/-- Witness for C9: the pairwise conjunct applied at the concrete pair
of the claim. -/
theorem c9_classify_denial_case_insensitive_witness :
    ClaimPipeline.classify_denial (some (strOf "Missing Modifier"))
      = ClaimPipeline.classify_denial (some (strOf "missing modifier")) :=
  c9_classify_denial_case_insensitive.1 (strOf "Missing Modifier") (strOf "missing modifier")
    (by decide)

/-- C10: the submitted_at value either adapter feeds into older_than is
absent or an output of to_iso_date, always the isoformat of a valid
date, so older_than never reaches its ValueError branch on an
adapter-produced claim. -/
theorem c10_older_than_total_on_adapter_dates :
    ∀ (row : Row) (days : Int) (today : Nat × Nat × Nat),
      (∃ b, older_than ((ClaimPipeline.load_alpha row).submitted_at) days today = Except.ok b)
      ∧ (∃ b, older_than ((ClaimPipeline.load_beta row).submitted_at) days today = Except.ok b)
      ∧ (∃ b, older_than (ClaimPipeline.to_iso_date (rowGet row "submitted_at")) days today
            = Except.ok b) := by
  intro row days today
  exact ⟨older_than_to_iso (rowGet row "submitted_at") days today,
         older_than_to_iso (rowGet row "date") days today,
         older_than_to_iso (rowGet row "submitted_at") days today⟩
